import Mathlib

/-!
Verification of the tile-world engine (chunk streaming, terrain generation,
collision resolution, water simulation, block interaction, inventory).

The Python source is embedded shallowly:

* pixel coordinates (Python floats) are modelled as rationals `ℚ` — every
  operation the embedded code performs on them (addition, subtraction,
  comparison, `math.floor`, `%`) is exact on the magnitudes involved;
* Python ints are `ℤ`, grid indices are `ℕ`;
* a Python object attribute that may be missing is an `Option`;
  reading a missing attribute, or a `TypeError` from a call with the
  wrong number of arguments, is an `Except PyErr` error value;
* module-level constants keep their source names and values.

The constants `WATER`, `POPPY`, `PUMPKIN` are imported by
`world/Chunk.py`, `world/WaterSimulation.py`, `world/BlockInteraction.py`
and `entity/Hitbox.py` from `world.Block`, but `world/Block.py` as
provided does not define them; they are modelled from the spec (which lists
Poppy, Pumpkin and Water among the tile-type tags) as fresh distinct tags.
Nothing below depends on their numeric values, only on their distinctness
from each other and from the tags that are defined in the source.
-/

namespace MC

/-- Outcomes of Python runtime errors that the embedded code can raise. -/
inductive PyErr
  | typeError
  | attributeError
  | outOfFuel
deriving DecidableEq, Repr

/-! ## Tile types and blocks (src/world/Block.py) -/

def AIR : ℤ := 0
def GRASS : ℤ := 1
def DIRT : ℤ := 2
def STONE : ℤ := 3
def COAL : ℤ := 4
def IRON : ℤ := 5
def GOLD : ℤ := 6
def DIAMOND : ℤ := 7
def OAK_LOG : ℤ := 8
def LEAVES : ℤ := 9
def BEDROCK : ℤ := -1
def OAK_PLANK : ℤ := 10
def COBBLE_STONE : ℤ := 11

/-- Modelled from the spec: `world/Block.py` in the provided sources does not
define `WATER`, although other modules import it from there; the spec lists
Water among the tile types.  Only distinctness from the other tags is used. -/
def WATER : ℤ := 16

/-- Modelled from the spec: `POPPY` is likewise imported but not defined in
the provided `world/Block.py`. -/
def POPPY : ℤ := 17

/-- Modelled from the spec: `PUMPKIN` is likewise imported but not defined in
the provided `world/Block.py`. -/
def PUMPKIN : ℤ := 18

/-- A block object (src/world/Block.py, class `Block`).  `__init__` stores
`x`, `y`, `width = height = BLOCK_SIZE` and `block_type`; it never sets a
`water_distance` attribute, so `waterDistance` records the optional presence
of that attribute on the object (`none` = the attribute was never set). -/
structure Block where
  x : ℚ
  y : ℚ
  block_type : ℤ
  waterDistance : Option ℤ
deriving DecidableEq, Repr

/-- The three-argument constructor `Block(x, y, block_type)`
(src/world/Block.py lines 61-74).  It leaves `water_distance` unset. -/
def Block.init (x y : ℚ) (t : ℤ) : Block :=
  ⟨x, y, t, none⟩

/-- Python semantics of the four-argument calls
`Block(x, y, WATER, distance)` found in `world/WaterSimulation.py`
(lines 125-130, 228-261, 280-285): `Block.__init__` accepts exactly
`(self, x, y, block_type)`, so these calls raise `TypeError`. -/
def Block.init4 (_x _y : ℚ) (_t _d : ℤ) : Except PyErr Block :=
  .error .typeError

/-- Python semantics of reading `block.water_distance`
(`world/WaterSimulation.py` lines 113, 153, 321 and
`world/BlockInteraction.py` line 139): `AttributeError` when the attribute
was never set on the object. -/
def Block.readWaterDistance (b : Block) : Except PyErr ℤ :=
  match b.waterDistance with
  | some d => .ok d
  | none => .error .attributeError

/-- Terrain layering (src/world/Block.py, `get_block_type` lines 77-105):
stone below `height+30`, dirt strictly between `height+27` and `height+30`,
grass exactly at `height+27`, air above, and the bottom row 191 forced to
bedrock. -/
def get_block_type (height y : ℤ) : ℤ :=
  let bt :=
    if y > height + 30 then STONE
    else if y > height + 27 then DIRT
    else if y = height + 27 then GRASS
    else AIR
  if y = 191 then BEDROCK else bt

/-! ## Chunks (src/world/Chunk.py) -/

/-- A chunk grid: row-major access `blocks y x` with
`y < CHUNK_HEIGHT = 192`, `x < CHUNK_WIDTH = 64`. -/
abbrev Grid := ℕ → ℕ → Block

/-- A chunk: its integer slot `position` and its block grid. -/
structure ChunkS where
  position : ℤ
  blocks : Grid

/-- Pixel offset of a chunk: `position * (CHUNK_WIDTH * BLOCK_SIZE)`
(src/world/Chunk.py line 48). -/
def ChunkS.offset (c : ChunkS) : ℚ :=
  (c.position : ℚ) * (64 * 64)

/-- First generation pass of `Chunk.generate_chunks`
(src/world/Chunk.py lines 58-68): every cell `(y, x)` becomes
`Block(x*BLOCK_SIZE + offset, y*BLOCK_SIZE, get_block_type(height, y))`.
The per-column surface height is a parameter `h` (the source computes
`int(8 + sin((x + position*64) * 0.3) * 2 + uniform(-0.5, 0.5))`; the flat
`h = 8` override of the spec's concrete scenario is the constant function). -/
def generate_terrain (pos : ℤ) (h : ℕ → ℤ) : Grid :=
  fun y x =>
    Block.init ((x : ℚ) * 64 + (pos : ℚ) * (64 * 64)) ((y : ℚ) * 64)
      (get_block_type (h x) (y : ℤ))

/-- Functional update of one grid cell (Python
`chunk.blocks[y][x] = block`). -/
def setBlock (g : Grid) (y x : ℕ) (b : Block) : Grid :=
  fun j i => if j = y ∧ i = x then b else g j i

/-- The chunk index containing a pixel abscissa
(src/world/Chunk.py, `calculate_player_position` lines 239-249):
`int(math.floor(player.x / (CHUNK_WIDTH * BLOCK_SIZE)))`. -/
def calculate_player_position (x : ℚ) : ℤ :=
  ⌊x / (64 * 64)⌋

/-! ## Chunk streaming (src/world/World.py, `load_chunks` lines 12-46)

The function's documented precondition is that `chunk_list` holds exactly
three chunks ordered left to right, so the window is a triple of chunk
positions (nothing in `load_chunks` reads chunk contents; a freshly
generated chunk is identified by its position). -/

/-- One call to `load_chunks(chunk_list, player)`: if the player sits in the
leftmost chunk, prepend `position - 1` and drop the rightmost; then, if the
player sits in the rightmost chunk, append `last position + 1` and drop the
leftmost.  Both `if`s are sequential in the source. -/
def load_chunks (w : ℤ × ℤ × ℤ) (px : ℚ) : ℤ × ℤ × ℤ :=
  let p := calculate_player_position px
  let w1 := if w.1 = p then (w.1 - 1, w.1, w.2.1) else w
  if w1.2.2 = p then (w1.2.1, w1.2.2, w1.2.2 + 1) else w1

/-! ## Inventory (src/world/Inventory.py) -/

/-- The inventory mapping `collected_blocks` (a Python dict from block type
to quantity); `none` = key absent. -/
abbrev Inventory := ℤ → Option ℤ

/-- Quantity held of a block type (absent key = 0). -/
def held_quantity (inv : Inventory) (t : ℤ) : ℤ :=
  (inv t).getD 0

/-- `Inventory.remove_block` (src/world/Inventory.py lines 61-82): if the
type is a key and its quantity is at least `q`, subtract `q`, deleting the
key when the remainder is `≤ 0`, and return `True`; otherwise return
`False`.  (The source also refreshes the hotbar selection when the selected
key is deleted; the selection state is not part of the mapping.) -/
def remove_block (inv : Inventory) (t q : ℤ) : Bool × Inventory :=
  match inv t with
  | some v =>
    if v ≥ q then
      let v2 := v - q
      if v2 ≤ 0 then (true, fun k => if k = t then none else inv k)
      else (true, fun k => if k = t then some v2 else inv k)
    else (false, inv)
  | none => (false, inv)

/-! ## Randomized flood fill (src/world/Block.py `generate_ore_vein`,
src/world/Chunk.py `Chunk.generate_pond`) -/

/-- State of the randomized flood-fill loops: the target grid, the
coordinate set `vein_blocks` / `pond_blocks`, the `frontier` list, and the
random draws — a stream of indices feeding
`random.randint(0, len(frontier) - 1)` and a stream of Boolean outcomes of
the `random.random() < p` expansion coin flips — with their cursors.  The
claim quantifies over every sequence of draws, so the streams are
arbitrary. -/
structure FloodState where
  grid : Grid
  veinBlocks : Finset (ℤ × ℤ)
  frontier : List (ℤ × ℤ)
  randIdx : ℕ → ℕ
  randIdxK : ℕ
  coins : ℕ → Bool
  coinsK : ℕ

/-- The eight expansion directions shared by both loops
(src/world/Block.py lines 139-143, src/world/Chunk.py lines 202-206). -/
def directions : List (ℤ × ℤ) :=
  [(-1, -1), (-1, 0), (-1, 1), (0, -1), (0, 1), (1, -1), (1, 0), (1, 1)]

/-- One neighbor-expansion step (src/world/Block.py lines 157-169,
src/world/Chunk.py lines 224-236): a neighbor already in the vein set or
in the frontier is skipped; otherwise one coin flip is consumed (the
outcome of `random.random() < 0.7` for orthogonal neighbors, `< 0.3` for
diagonal ones) and on success the neighbor is appended to the frontier and
added to the vein set. -/
def pushNeighbor (xy : ℤ × ℤ) (s : FloodState) (d : ℤ × ℤ) : FloodState :=
  let n := (xy.1 + d.1, xy.2 + d.2)
  if n ∈ s.veinBlocks ∨ n ∈ s.frontier then s
  else
    let c := s.coins s.coinsK
    let s2 := { s with coinsK := s.coinsK + 1 }
    if c then
      { s2 with frontier := s2.frontier ++ [n], veinBlocks := insert n s2.veinBlocks }
    else s2

/-- The expansion over all eight directions after a successful
placement. -/
def pushNeighbors (xy : ℤ × ℤ) (s : FloodState) : FloodState :=
  directions.foldl (pushNeighbor xy) s

/-- The loop guard `len(vein_blocks) < size and frontier` of both
loops. -/
def floodGuard (size : ℕ) (s : FloodState) : Bool :=
  decide (s.veinBlocks.card < size) && !s.frontier.isEmpty

/-- One loop iteration, parameterized by the placement attempt
(`tryPlace g xy = some g2` exactly when the popped cell satisfies the
allowed-replace predicate, `g2` being the converted grid): pop the
frontier element at the drawn index (`frontier.pop(randint(0, len-1))`,
one index draw), and, when placement succeeds, expand the eight
neighbors. -/
def floodStep (tryPlace : Grid → ℤ × ℤ → Option Grid) (s : FloodState) : FloodState :=
  let i := s.randIdx s.randIdxK % s.frontier.length
  let xy := s.frontier.getD i (0, 0)
  let s1 := { s with frontier := s.frontier.eraseIdx i, randIdxK := s.randIdxK + 1 }
  match tryPlace s1.grid xy with
  | none => s1
  | some g => pushNeighbors xy { s1 with grid := g }

/-- The fueled while-loop: iterate `floodStep` while the guard holds.
The fuel only dominates the iteration count; `floodRun_guard_false` below
shows the guard is reached before the fuel chosen in `floodFuel` runs
out. -/
def floodRun (tryPlace : Grid → ℤ × ℤ → Option Grid) (size : ℕ) :
    ℕ → FloodState → FloodState
  | 0, s => s
  | fuel + 1, s =>
    if floodGuard size s then floodRun tryPlace size fuel (floodStep tryPlace s)
    else s

/-- Termination measure: each iteration pops one frontier element and each
push grows the vein set by one, so
`frontier.length + 9 * (size + 8 - card)` strictly decreases. -/
def floodMeasure (size : ℕ) (s : FloodState) : ℕ :=
  s.frontier.length + 9 * (size + 8 - s.veinBlocks.card)

/-- Fuel strictly exceeding the measure of any seeded initial state. -/
def floodFuel (size : ℕ) : ℕ :=
  9 * (size + 8) + 2

/-- The initial state: the seed is placed in both the coordinate set and
the frontier (src/world/Block.py lines 131-136, src/world/Chunk.py lines
192-199). -/
def floodInit (g : Grid) (start : ℤ × ℤ) (ri : ℕ → ℕ) (co : ℕ → Bool) : FloodState :=
  ⟨g, {start}, [start], ri, 0, co, 0⟩

/-- The placement attempt of `generate_ore_vein` (src/world/Block.py lines
150-155): in bounds (column within the row width 64, row below
`chunk_height`) and currently Stone, the block's `block_type` is mutated
in place to the ore type. -/
def vein_place (ore : ℤ) (chunkHeight : ℕ) (g : Grid) (xy : ℤ × ℤ) : Option Grid :=
  if 0 ≤ xy.1 ∧ xy.1 < 64 ∧ 0 ≤ xy.2 ∧ xy.2 < (chunkHeight : ℤ) ∧
     (g xy.2.toNat xy.1.toNat).block_type = STONE then
    some (setBlock g xy.2.toNat xy.1.toNat
      { g xy.2.toNat xy.1.toNat with block_type := ore })
  else none

/-- The placement attempt of `generate_pond` (src/world/Chunk.py lines
213-222): in bounds and currently Grass or Dirt, the cell is replaced by a
Water block built with the three-argument constructor. -/
def pond_place (offset : ℚ) (g : Grid) (xy : ℤ × ℤ) : Option Grid :=
  if 0 ≤ xy.1 ∧ xy.1 < 64 ∧ 0 ≤ xy.2 ∧ xy.2 < 192 ∧
     ((g xy.2.toNat xy.1.toNat).block_type = GRASS ∨
      (g xy.2.toNat xy.1.toNat).block_type = DIRT) then
    some (setBlock g xy.2.toNat xy.1.toNat
      (Block.init ((xy.1 : ℚ) * 64 + offset) ((xy.2 : ℚ) * 64) WATER))
  else none

/-- `generate_ore_vein(chunk, ore_type, start_x, start_y, vein_size,
chunk_height)` with the drawn target size as a parameter
(`size = min_size + int(random() ** 2 * size_range)`). -/
def generate_ore_vein (g : Grid) (ore : ℤ) (startX startY : ℤ)
    (size chunkHeight : ℕ) (ri : ℕ → ℕ) (co : ℕ → Bool) : FloodState :=
  floodRun (vein_place ore chunkHeight) size (floodFuel size)
    (floodInit g (startX, startY) ri co)

/-- `Chunk.generate_pond(center_x, center_y)` with the drawn pond size as
a parameter (`pond_size = random.randint(POND_MIN_SIZE, POND_MAX_SIZE)`)
and the owning chunk's pixel offset. -/
def generate_pond (g : Grid) (offset : ℚ) (centerX centerY : ℤ)
    (size : ℕ) (ri : ℕ → ℕ) (co : ℕ → Bool) : FloodState :=
  floodRun (pond_place offset) size (floodFuel size)
    (floodInit g (centerX, centerY) ri co)

/-- The frontier discipline of both loops: the frontier has no duplicates
and every frontier element is recorded in the vein set — together with the
non-membership guard on insertion and the fact that the vein set only
grows, this is exactly "each grid coordinate is inserted into the frontier
at most once". -/
def FloodInv (s : FloodState) : Prop :=
  s.frontier.Nodup ∧ ∀ a ∈ s.frontier, a ∈ s.veinBlocks

/-! ## Collision resolution (src/entity/Hitbox.py) -/

/-- The physics state of a `Hitbox` entity: position `x, y` (top-left),
size, the tentative position `x_change, y_change`, and the grounded flag. -/
structure Hitbox where
  x : ℚ
  y : ℚ
  width : ℚ
  height : ℚ
  x_change : ℚ
  y_change : ℚ
  grounded : Bool
deriving DecidableEq, Repr

/-- One iteration of the loop in `Hitbox._resolve_collisions`
(src/entity/Hitbox.py lines 184-200).  Overlap amounts are computed from
the entity's current `x, y` (which the pass never changes); the
smaller-overlap axis is resolved by clamping `x_change` or `y_change` to
the block's edge; `grounded` is assigned `True` in exactly one branch: the
vertical branch with `self.y >= block.y` (the collision-from-below case).
Block width and height are the constant `BLOCK_SIZE = 64`. -/
def resolve_one (e : Hitbox) (b : Block) : Hitbox :=
  let x_overlap := min (e.x + e.width) (b.x + 64) - max e.x b.x
  let y_overlap := min (e.y + e.height) (b.y + 64) - max e.y b.y
  if x_overlap < y_overlap then
    if e.x < b.x then { e with x_change := b.x - e.width }
    else { e with x_change := b.x + 64 }
  else
    if e.y < b.y then { e with y_change := b.y - e.height }
    else { e with grounded := true, y_change := b.y + 64 }

/-- `Hitbox._resolve_collisions(block_list)` (src/entity/Hitbox.py lines
176-201): `self.grounded = False`, then the per-block resolution loop. -/
def resolve_collisions (e : Hitbox) (bs : List Block) : Hitbox :=
  bs.foldl resolve_one { e with grounded := false }

/-- The loop over `block_list` in `update_player_position`
(src/entity/Hitbox.py lines 90-94), run after `_resolve_collisions`:
each iteration assigns `grounded = (block.y >= self.y)`, so the last
block's test wins. -/
def grounded_pass (e : Hitbox) (bs : List Block) : Hitbox :=
  bs.foldl (fun a b => { a with grounded := decide (b.y ≥ a.y) }) e

/-- The collision-resolution part of `Hitbox.update_player_position`
(src/entity/Hitbox.py lines 88-98) applied to the colliding-block list
found by the neighborhood scan: `_resolve_collisions`, the grounded loop,
then `self.x = x_change; self.y = y_change`.  (The in-water check touches
only `in_water` and is omitted.) -/
def update_player_position (e : Hitbox) (bs : List Block) : Hitbox :=
  let e1 := resolve_collisions e bs
  let e2 := grounded_pass e1 bs
  { e2 with x := e2.x_change, y := e2.y_change }

/-- Whether `_resolve_collisions` resolves block `b` vertically from below
for entity `e` — the branch in which it assigns `grounded = True`: the
vertical axis is chosen (`not x_overlap < y_overlap`) and
`not self.y < block.y`. -/
def resolved_from_below (e : Hitbox) (b : Block) : Bool :=
  let x_overlap := min (e.x + e.width) (b.x + 64) - max e.x b.x
  let y_overlap := min (e.y + e.height) (b.y + 64) - max e.y b.y
  !(decide (x_overlap < y_overlap)) && !(decide (e.y < b.y))

/-- Concrete entity for the C2 counterexample: at (100, 100), size
38 × 115, with tentative position equal to the current one. -/
def eC2 : Hitbox :=
  ⟨100, 100, 38, 115, 100, 100, false⟩

/-- Concrete wall block for the C2 counterexample: a solid block at
(130, 120), beside the entity, whose top edge (120) is below the entity's
top (100); its horizontal overlap (8) is smaller than its vertical overlap
(64), so it is resolved horizontally. -/
def bC2 : Block :=
  ⟨130, 120, STONE, none⟩

/-! ## Block interaction (src/world/BlockInteraction.py) and
water simulation (src/world/WaterSimulation.py) -/

/-- Python `a % m` on floats for positive `m`: `a - m * floor(a / m)`,
always in `[0, m)`. -/
def pyMod (a m : ℚ) : ℚ :=
  a - m * ⌊a / m⌋

/-- Functional update of the first chunk with the given position (Python
mutates the chunk object found in `chunk_list`, which is the first match
of the lookup loops). -/
def updateChunkBlocks (w : List ChunkS) (pos : ℤ) (y x : ℕ) (b : Block) : List ChunkS :=
  match w with
  | [] => []
  | c :: rest =>
    if c.position = pos then { c with blocks := setBlock c.blocks y x b } :: rest
    else c :: updateChunkBlocks rest pos y x b

/-- Lookup of the chunk with a given position (the
`for c in chunk_list: if c.position == ...` loops). -/
def findChunk (w : List ChunkS) (pos : ℤ) : Option ChunkS :=
  w.find? (fun c => c.position == pos)

/-- `BlockInteraction.get_block_at_position` (lines 32-70): convert the
screen coordinate to world coordinates through the camera offset, derive
`(chunk position, column, row)`, and return the containing chunk with the
cell address — `none` when no chunk in the window has that position or the
cell address is out of bounds.  (The source returns the block object too;
it is `chunk.blocks[row][col]` of the returned chunk and is `None` exactly
when the chunk is `None`.) -/
def get_block_at_position (sx sy camx camy : ℚ) (w : List ChunkS) :
    Option ChunkS × ℤ × ℤ :=
  let world_x := sx + camx
  let world_y := sy + camy
  let chunk_x : ℤ := ⌊world_x / (64 * 64)⌋
  let block_x : ℤ := ⌊pyMod world_x (64 * 64) / 64⌋
  let block_y : ℤ := ⌊world_y / 64⌋
  match findChunk w chunk_x with
  | none => (none, block_x, block_y)
  | some c =>
    if block_x < 0 ∨ block_x ≥ 64 ∨ block_y < 0 ∨ block_y ≥ 192 then
      (none, block_x, block_y)
    else (some c, block_x, block_y)

/-- `BlockInteraction.is_within_reach` (lines 72-105): the Euclidean
distance between the player's center and the block's center, in block
units, is at most `MAX_REACH = 6`.  The source compares
`sqrt(d2) / BLOCK_SIZE <= 6`; squaring both (non-negative) sides gives the
equivalent polynomial comparison used here. -/
def is_within_reach (p : Hitbox) (block_x block_y : ℤ) (c : ChunkS) : Bool :=
  let block_abs_x : ℚ := (c.position : ℚ) * (64 * 64) + (block_x : ℚ) * 64
  let block_abs_y : ℚ := (block_y : ℚ) * 64
  let player_center_x := p.x + p.width / 2
  let player_center_y := p.y + p.height / 2
  let block_center_x := block_abs_x + 32
  let block_center_y := block_abs_y + 32
  decide ((player_center_x - block_center_x) ^ 2 +
    (player_center_y - block_center_y) ^ 2 ≤ (6 * 64) ^ 2)

/-- `WaterSimulation.place_water_source` (lines 265-285): out-of-bounds
coordinates are a silent no-op; otherwise the source executes
`Block(x*64 + offset, y*64, WATER, 0)` — a four-argument constructor call
that raises `TypeError` (see `Block.init4`). -/
def place_water_source (c : ChunkS) (x y : ℤ) : Except PyErr ChunkS :=
  if ¬ (0 ≤ x ∧ x < 64 ∧ 0 ≤ y ∧ y < 192) then .ok c
  else
    (Block.init4 ((x : ℚ) * 64 + c.offset) ((y : ℚ) * 64) WATER 0).map
      (fun b => { c with blocks := setBlock c.blocks y.toNat x.toNat b })

/-- `WaterSimulation._flow_downward` (lines 91-136) restricted to the
chunk it operates on: at the bottom row nothing flows; otherwise the code
first reads `current_block.water_distance` (an `AttributeError` when the
attribute is missing), then, if the cell below is Air or Poppy, executes a
four-argument `Block` call (a `TypeError`).  The `updated_blocks`
bookkeeping only marks visited cells and is omitted. -/
def flow_downward (c : ChunkS) (x y : ℤ) : Except PyErr (Bool × ChunkS) :=
  if y ≥ 191 then .ok (false, c)
  else do
    let d ← (c.blocks y.toNat x.toNat).readWaterDistance
    let below := c.blocks (y.toNat + 1) x.toNat
    if below.block_type = AIR ∨ below.block_type = POPPY then do
      let b ← Block.init4 ((x : ℚ) * 64 + c.offset) (((y : ℚ) + 1) * 64) WATER (d + 1)
      .ok (true, { c with blocks := setBlock c.blocks (y.toNat + 1) x.toNat b })
    else .ok (false, c)

/-- The neighbor scan of one BFS iteration of
`WaterSimulation.remove_connected_water` (lines 331-359): for the four
directions `(0,-1), (0,1), (-1,0), (1,0)`, cross into the adjacent chunk
of the window at a column boundary (skipping the direction when that chunk
is absent), and enqueue the neighbor id when the neighbor cell is a Water
block in bounds. -/
def rcw_neighbors (w : List ChunkS) (cpos : ℤ) (cx cy : ℤ) : List (ℤ × ℤ × ℤ) :=
  ([((0 : ℤ), (-1 : ℤ)), (0, 1), (-1, 0), (1, 0)]).foldl
    (fun acc d =>
      let nx0 := cx + d.1
      let ny := cy + d.2
      let hop : Option (ℤ × ℤ) :=
        if nx0 < 0 then
          match findChunk w (cpos - 1) with
          | some c2 => some (c2.position, 63)
          | none => none
        else if nx0 ≥ 64 then
          match findChunk w (cpos + 1) with
          | some c2 => some (c2.position, 0)
          | none => none
        else some (cpos, nx0)
      match hop with
      | none => acc
      | some (npos, nx) =>
        match findChunk w npos with
        | none => acc
        | some nc =>
          if 0 ≤ nx ∧ nx < 64 ∧ 0 ≤ ny ∧ ny < 192 ∧
             (nc.blocks ny.toNat nx.toNat).block_type = WATER then
            acc ++ [(npos, nx, ny)]
          else acc)
    []

/-- The BFS loop of `WaterSimulation.remove_connected_water`
(lines 299-359), with queue entries `(chunk position, x, y)` (the source
queues chunk objects living in the window; positions identify them).  Each
iteration pops the queue front; skips visited ids, ids outside the window
or grid, and non-Water cells; skips source blocks
(`water_distance == 0`) — executing `continue` BEFORE enqueueing their
neighbors; and otherwise replaces the block with Air and enqueues the
Water neighbors.  `fuel` dominates the iteration count (visited ids and
queue growth are finite); it is never exhausted in the runs proved below. -/
def remove_connected_water_go :
    ℕ → List (ℤ × ℤ × ℤ) → List (ℤ × ℤ × ℤ) → List ChunkS → Except PyErr (List ChunkS)
  | 0, _, _, _ => .error .outOfFuel
  | fuel + 1, visited, queue, w =>
    match queue with
    | [] => .ok w
    | (cpos, cx, cy) :: rest =>
      if (cpos, cx, cy) ∈ visited then
        remove_connected_water_go fuel visited rest w
      else
        let visited2 := (cpos, cx, cy) :: visited
        match findChunk w cpos with
        | none => remove_connected_water_go fuel visited2 rest w
        | some c =>
          if ¬ (0 ≤ cx ∧ cx < 64 ∧ 0 ≤ cy ∧ cy < 192) ∨
             (c.blocks cy.toNat cx.toNat).block_type ≠ WATER then
            remove_connected_water_go fuel visited2 rest w
          else
            match (c.blocks cy.toNat cx.toNat).readWaterDistance with
            | .error e2 => .error e2
            | .ok d =>
              if d = 0 then
                remove_connected_water_go fuel visited2 rest w
              else
                let w2 := updateChunkBlocks w cpos cy.toNat cx.toNat
                  (Block.init ((cx : ℚ) * 64 + c.offset) ((cy : ℚ) * 64) AIR)
                remove_connected_water_go fuel visited2
                  (rest ++ rcw_neighbors w2 cpos cx cy) w2

/-- `WaterSimulation.remove_connected_water(chunk, x, y, chunk_list)`:
run the BFS from the given cell. -/
def remove_connected_water (c : ChunkS) (x y : ℤ) (w : List ChunkS) :
    Except PyErr (List ChunkS) :=
  remove_connected_water_go 1000000 [] [(c.position, x, y)] w

/-- `BlockInteraction.break_block` (lines 108-174): resolve the target
address (no chunk, Air or Bedrock: no-op returning AIR); reject when out
of reach; Water branches on `block.water_distance == 0` (source removal
then clearing, yielding WATER; non-source just cleared, yielding AIR);
Stone yields COBBLE_STONE; everything else yields itself, the tile being
replaced by Air. -/
def break_block (mx my camx camy : ℚ) (w : List ChunkS) (p : Hitbox) :
    Except PyErr (ℤ × List ChunkS) :=
  match get_block_at_position mx my camx camy w with
  | (none, _, _) => .ok (AIR, w)
  | (some c, bX, bY) =>
    let blk := c.blocks bY.toNat bX.toNat
    if blk.block_type = AIR ∨ blk.block_type = BEDROCK then .ok (AIR, w)
    else if ¬ is_within_reach p bX bY c then .ok (AIR, w)
    else if blk.block_type = WATER then do
      let d ← blk.readWaterDistance
      if d = 0 then do
        let w2 ← remove_connected_water c bX bY w
        .ok (WATER, updateChunkBlocks w2 c.position bY.toNat bX.toNat
          (Block.init ((bX : ℚ) * 64 + c.offset) ((bY : ℚ) * 64) AIR))
      else
        .ok (AIR, updateChunkBlocks w c.position bY.toNat bX.toNat
          (Block.init ((bX : ℚ) * 64 + c.offset) ((bY : ℚ) * 64) AIR))
    else
      let t := if blk.block_type = STONE then COBBLE_STONE else blk.block_type
      .ok (t, updateChunkBlocks w c.position bY.toNat bX.toNat
        (Block.init ((bX : ℚ) * 64 + c.offset) ((bY : ℚ) * 64) AIR))

/-- Replace the first chunk of the window carrying the given chunk's
position by it (Python mutates the chunk object in place). -/
def setChunk (w : List ChunkS) (c2 : ChunkS) : List ChunkS :=
  match w with
  | [] => []
  | c :: rest => if c.position = c2.position then c2 :: rest else c :: setChunk rest c2

/-- `BlockInteraction.place_block` (lines 176-229): no chunk, a non-Air
target, an out-of-reach target, or a target overlapping the player's own
cell (same chunk and column, and row equal to the head row
`floor(y/64)` or foot row `floor((y+height-1)/64)`) are rejected with
`False` and no change; Water placement goes through
`place_water_source`, anything else writes a plain block, returning
`True`. -/
def place_block (mx my camx camy : ℚ) (w : List ChunkS) (p : Hitbox) (btype : ℤ) :
    Except PyErr (Bool × List ChunkS) :=
  match get_block_at_position mx my camx camy w with
  | (none, _, _) => .ok (false, w)
  | (some c, bX, bY) =>
    if (c.blocks bY.toNat bX.toNat).block_type ≠ AIR then .ok (false, w)
    else if ¬ is_within_reach p bX bY c then .ok (false, w)
    else
      let player_chunk_x : ℤ := ⌊p.x / (64 * 64)⌋
      let player_block_x : ℤ := ⌊pyMod p.x (64 * 64) / 64⌋
      let player_block_y : ℤ := ⌊p.y / 64⌋
      let player_block_y_bottom : ℤ := ⌊(p.y + p.height - 1) / 64⌋
      if c.position = player_chunk_x ∧ bX = player_block_x ∧
         (bY = player_block_y ∨ bY = player_block_y_bottom) then .ok (false, w)
      else if btype = WATER then
        (place_water_source c bX bY).map (fun c2 => (true, setChunk w c2))
      else
        .ok (true, updateChunkBlocks w c.position bY.toNat bX.toNat
          (Block.init ((bX : ℚ) * 64 + c.offset) ((bY : ℚ) * 64) btype))

/-- A chunk generated with the flat height field `h(x) = 8`. -/
def flatChunk (pos : ℤ) : ChunkS :=
  ⟨pos, generate_terrain pos (fun _ => 8)⟩

/-- Window for the C3 counterexample run: the flat chunk 0 carrying a
Water source (`water_distance = 0`) at column 10, row 20 and a connected
flowing Water block (`water_distance = 1`) at column 11, row 20 — both
with the distance attribute present, as the intended four-argument
constructor would have created them. -/
def cC3 : ChunkS :=
  ⟨0, setBlock (setBlock (generate_terrain 0 (fun _ => 8))
      20 10 ⟨640, 1280, WATER, some 0⟩)
      20 11 ⟨704, 1280, WATER, some 1⟩⟩

/-- The chunk window for the C3 run. -/
def wC3 : List ChunkS := [cC3]

/-- Window for the C6/C7 witnesses: the single flat chunk 0. -/
def wC6 : List ChunkS := [flatChunk 0]

/-- Player for the C6/C7 witnesses, standing near the target cells. -/
def pC6 : Hitbox :=
  ⟨600, 2500, 38, 115, 600, 2500, false⟩

/-! ## Tick phases (src/Game.py, `Game.update` lines 78-116) -/

/-- The subsystem calls made by `Game.update`, in order. -/
inductive GamePhase
  | inputSampling
  | blockInteraction
  | physicsStep
  | cameraCenter
  | chunkWindow
  | waterTick
  | renderFrame
  | fpsCounter
deriving DecidableEq, Repr

/-- The call sequence of `Game.update` (src/Game.py lines 78-116):
`control_updates()`; `handle_block_interaction()`;
`player.update_player_position(chunk_list)`;
`camera.center_on_player(player)`; `load_chunks(chunk_list, player)`;
`drawer.render_frame(...)`; FPS counter update.
`WaterSimulation.update_water` is called nowhere in `Game.py` (nor anywhere
else in the provided sources), so no `waterTick` phase occurs. -/
def game_update_phases : List GamePhase :=
  [GamePhase.inputSampling, GamePhase.blockInteraction, GamePhase.physicsStep,
   GamePhase.cameraCenter, GamePhase.chunkWindow, GamePhase.renderFrame,
   GamePhase.fpsCounter]

/-- A concrete inventory holding five Stone, used as witness input. -/
def invC9 : Inventory :=
  fun k => if k = STONE then some 5 else none

end MC

/-! # Theorems -/

namespace MC

set_option maxRecDepth 4000 in
/-- C5: for a chunk generated with flat surface height `h(x) = 8` (jitter
disabled), every column has Air at rows 0-34, Grass at row 35, Dirt at rows
36-38, Stone at rows 39-190 and Bedrock at row 191, before the ore and
decoration passes. -/
theorem claim_c5 (x y : ℕ) (_hx : x < 64) (hy : y < 192) :
    (generate_terrain 0 (fun _ => 8) y x).block_type =
      (if y ≤ 34 then AIR
       else if y = 35 then GRASS
       else if y ≤ 38 then DIRT
       else if y ≤ 190 then STONE
       else BEDROCK) := by
  show get_block_type 8 (y : ℤ) = _
  revert hy
  revert y
  decide

/-- Witness for C5 at column 0: rows 34, 35, 36, 39 and 191 evaluate to
Air, Grass, Dirt, Stone and Bedrock respectively. -/
theorem claim_c5_witness :
    (generate_terrain 0 (fun _ => 8) 34 0).block_type = AIR ∧
    (generate_terrain 0 (fun _ => 8) 35 0).block_type = GRASS ∧
    (generate_terrain 0 (fun _ => 8) 36 0).block_type = DIRT ∧
    (generate_terrain 0 (fun _ => 8) 39 0).block_type = STONE ∧
    (generate_terrain 0 (fun _ => 8) 191 0).block_type = BEDROCK := by
  refine ⟨?_, ?_, ?_, ?_, ?_⟩
  · exact (claim_c5 0 34 (by decide) (by decide)).trans (by decide)
  · exact (claim_c5 0 35 (by decide) (by decide)).trans (by decide)
  · exact (claim_c5 0 36 (by decide) (by decide)).trans (by decide)
  · exact (claim_c5 0 39 (by decide) (by decide)).trans (by decide)
  · exact (claim_c5 0 191 (by decide) (by decide)).trans (by decide)

/-- C1 counterexample: the claim quantifies over arbitrary horizontal
movements, but a movement that carries the player two or more chunks in one
tick (possible under a large frame delta, since displacement scales with
`dt`) leaves the window untouched: from window `(-1, 0, 1)` with
`player.x = 12288` (chunk index 3), `load_chunks` changes nothing and the
middle position 0 differs from the player's chunk index 3. -/
theorem claim_c1_counterexample :
    load_chunks (-1, 0, 1) (12288 : ℚ) = (-1, 0, 1) ∧
    calculate_player_position (12288 : ℚ) = 3 ∧
    (load_chunks (-1, 0, 1) (12288 : ℚ)).2.1 ≠ calculate_player_position (12288 : ℚ) := by
  have hp : calculate_player_position (12288 : ℚ) = 3 := by
    unfold calculate_player_position
    norm_num
  have hl : load_chunks (-1, 0, 1) (12288 : ℚ) = (-1, 0, 1) := by
    simp [load_chunks, hp]
  exact ⟨hl, hp, by rw [hl, hp]; decide⟩

/-- C1 (amended): for a window of three consecutive chunk positions, any
movement after which the player's chunk index still lies inside the window
(it changes by at most one per call) is restored by `load_chunks`: the
positions are again consecutive and the middle one equals
`floor(player.x / (CHUNK_WIDTH * TILE_SIZE))`.  Applied after every call,
this gives the claimed invariant for every movement sequence whose steps
stay within the window. -/
theorem claim_c1 (c0 c1 c2 : ℤ) (px : ℚ)
    (h01 : c1 = c0 + 1) (h12 : c2 = c1 + 1)
    (hin : calculate_player_position px = c0 ∨ calculate_player_position px = c1 ∨
      calculate_player_position px = c2) :
    (load_chunks (c0, c1, c2) px).2.1 = (load_chunks (c0, c1, c2) px).1 + 1 ∧
    (load_chunks (c0, c1, c2) px).2.2 = (load_chunks (c0, c1, c2) px).2.1 + 1 ∧
    (load_chunks (c0, c1, c2) px).2.1 = calculate_player_position px := by
  subst h01
  subst h12
  unfold load_chunks
  generalize calculate_player_position px = p at hin ⊢
  rcases hin with h | h | h <;> subst h <;> dsimp only <;>
    split_ifs <;> (try dsimp only at *) <;> omega

/-- Witness for C1: from window `(-1, 0, 1)` with the player at
`x = 4100` (chunk index 1, the right edge), the window shifts right to
`(0, 1, 2)` with middle 1. -/
theorem claim_c1_witness :
    (load_chunks (-1, 0, 1) (4100 : ℚ)).2.1 = (load_chunks (-1, 0, 1) (4100 : ℚ)).1 + 1 ∧
    (load_chunks (-1, 0, 1) (4100 : ℚ)).2.2 = (load_chunks (-1, 0, 1) (4100 : ℚ)).2.1 + 1 ∧
    (load_chunks (-1, 0, 1) (4100 : ℚ)).2.1 = calculate_player_position (4100 : ℚ) :=
  claim_c1 (-1) 0 1 (4100 : ℚ) (by decide) (by decide)
    (Or.inr (Or.inr (by unfold calculate_player_position; norm_num)))

/-- C9 counterexample: the claim's success clause fails at quantity 0 on a
type that is not held: `remove_block(GRASS, 0)` has `0 ≤` the held quantity
(which is 0), yet the code returns `False` because the dict-membership test
fails. -/
theorem claim_c9_counterexample :
    (remove_block (fun _ => none) GRASS 0).1 = false ∧
    held_quantity (fun _ => none) GRASS = 0 :=
  ⟨rfl, rfl⟩

/-- C9 (amended): for every inventory state and every quantity `n ≥ 1`,
removing more blocks of a type than are held fails atomically —
`remove_block(t, n)` with `n` greater than the held quantity returns
`False` and leaves the mapping completely unchanged — and with `n` at most
the held quantity it returns `True`, decreases the count of `t` by exactly
`n`, and touches no other key.  (At `n = 0` with `t` absent, the code
returns `False` although `0 ≤` the held quantity.) -/
theorem claim_c9 (inv : Inventory) (t n : ℤ) (hn : 1 ≤ n) :
    (held_quantity inv t < n → remove_block inv t n = (false, inv)) ∧
    (n ≤ held_quantity inv t →
      (remove_block inv t n).1 = true ∧
      held_quantity (remove_block inv t n).2 t = held_quantity inv t - n ∧
      ∀ t2, t2 ≠ t → (remove_block inv t n).2 t2 = inv t2) := by
  constructor
  · intro hlt
    cases hinv : inv t with
    | none => simp [remove_block, hinv]
    | some v =>
      have hv : ¬ v ≥ n := by
        simp [held_quantity, hinv] at hlt
        omega
      simp [remove_block, hinv, hv]
  · intro hle
    cases hinv : inv t with
    | none =>
      exfalso
      simp [held_quantity, hinv] at hle
      omega
    | some v =>
      have hvq : held_quantity inv t = v := by simp [held_quantity, hinv]
      have hvn : v ≥ n := by omega
      by_cases hz : v - n ≤ 0
      · refine ⟨?_, ?_, ?_⟩
        · simp [remove_block, hinv, hvn, hz]
        · simp [remove_block, held_quantity, hinv, hvn, hz]
          omega
        · intro t2 ht2
          simp [remove_block, hinv, hvn, hz, ht2]
      · refine ⟨?_, ?_, ?_⟩
        · simp [remove_block, hinv, hvn, hz]
        · simp [remove_block, held_quantity, hinv, hvn, hz]
          try omega
        · intro t2 ht2
          simp [remove_block, hinv, hvn, hz, ht2]

/-- Witness for C9: from an inventory holding five Stone, removing two
succeeds and leaves three. -/
theorem claim_c9_witness :
    (remove_block invC9 STONE 2).1 = true ∧
    held_quantity (remove_block invC9 STONE 2).2 STONE = 3 := by
  have h := (claim_c9 invC9 STONE 2 (by decide)).2 (by decide)
  exact ⟨h.1, h.2.1.trans (by decide)⟩

/-- C8 counterexample: `Game.update` contains no call to
`WaterSimulation.update_water` at all, so the water automaton is invoked
zero times per tick — not exactly once as claimed. -/
theorem claim_c8_counterexample :
    game_update_phases.count GamePhase.waterTick = 0 ∧
    game_update_phases.count GamePhase.waterTick ≠ 1 := by decide

/-- C8 (amended): each tick runs input sampling, then block interaction,
then the physics step, then camera centering, then chunk-window
maintenance, then rendering, strictly sequentially; the water automaton's
update over the chunk window is never invoked (zero times per tick,
independent of player input). -/
theorem claim_c8 :
    game_update_phases.indexOf GamePhase.inputSampling <
      game_update_phases.indexOf GamePhase.physicsStep ∧
    game_update_phases.indexOf GamePhase.physicsStep <
      game_update_phases.indexOf GamePhase.chunkWindow ∧
    game_update_phases.count GamePhase.waterTick = 0 := by decide

/-- One neighbor expansion grows the vein set and the frontier by the same
amount, at most one. -/
theorem pushNeighbor_card_len (xy d : ℤ × ℤ) (s : FloodState) :
    ∃ k ≤ 1, (pushNeighbor xy s d).veinBlocks.card = s.veinBlocks.card + k ∧
      (pushNeighbor xy s d).frontier.length = s.frontier.length + k := by
  unfold pushNeighbor
  dsimp only
  split_ifs with h1 h2
  · exact ⟨0, by omega, by simp, by simp⟩
  · refine ⟨1, le_refl 1, ?_, ?_⟩
    · dsimp only
      rw [Finset.card_insert_of_not_mem (fun hm => h1 (Or.inl hm))]
    · simp
  · exact ⟨0, by omega, rfl, rfl⟩

/-- The full eight-direction expansion grows the vein set and the frontier
by the same amount, at most the number of directions. -/
theorem pushList_card_len (xy : ℤ × ℤ) (ds : List (ℤ × ℤ)) : ∀ s : FloodState,
    ∃ k ≤ ds.length,
      (ds.foldl (pushNeighbor xy) s).veinBlocks.card = s.veinBlocks.card + k ∧
      (ds.foldl (pushNeighbor xy) s).frontier.length = s.frontier.length + k := by
  induction ds with
  | nil => exact fun s => ⟨0, by simp, by simp, by simp⟩
  | cons d ds ih =>
    intro s
    obtain ⟨k1, hk1, hc1, hl1⟩ := pushNeighbor_card_len xy d s
    obtain ⟨k, hk, hc, hl⟩ := ih (pushNeighbor xy s d)
    refine ⟨k1 + k, ?_, ?_, ?_⟩
    · simp only [List.length_cons]
      omega
    · rw [List.foldl_cons, hc, hc1]
      omega
    · rw [List.foldl_cons, hl, hl1]
      omega

/-- One neighbor expansion preserves the frontier discipline (the
insertion guard checks both the vein set and the frontier) and only grows
the vein set. -/
theorem pushNeighbor_inv (xy d : ℤ × ℤ) (s : FloodState) (h : FloodInv s) :
    FloodInv (pushNeighbor xy s d) := by
  unfold pushNeighbor
  dsimp only
  split_ifs with h1 h2
  · exact h
  · constructor
    · refine List.Nodup.append h.1 (List.nodup_singleton _) ?_
      intro a ha hb
      simp only [List.mem_singleton] at hb
      subst hb
      exact h1 (Or.inr ha)
    · intro a ha
      rcases List.mem_append.mp ha with ha2 | ha2
      · exact Finset.mem_insert_of_mem (h.2 a ha2)
      · simp only [List.mem_singleton] at ha2
        subst ha2
        exact Finset.mem_insert_self _ _
  · exact h

/-- The eight-direction expansion preserves the frontier discipline. -/
theorem pushList_inv (xy : ℤ × ℤ) (ds : List (ℤ × ℤ)) : ∀ s : FloodState,
    FloodInv s → FloodInv (ds.foldl (pushNeighbor xy) s) := by
  induction ds with
  | nil => exact fun _ h => h
  | cons d ds ih =>
    intro s h
    rw [List.foldl_cons]
    exact ih _ (pushNeighbor_inv xy d s h)

/-- Reading the loop guard: the vein set is still below the target size
and the frontier is nonempty. -/
theorem floodGuard_true (size : ℕ) (s : FloodState) (h : floodGuard size s = true) :
    s.veinBlocks.card < size ∧ 0 < s.frontier.length := by
  simp only [floodGuard, Bool.and_eq_true, decide_eq_true_eq, Bool.not_eq_true',
    List.isEmpty_eq_false] at h
  exact ⟨h.1, List.length_pos.mpr h.2⟩

/-- Every iteration whose guard holds strictly decreases the measure: one
frontier element is popped, and each of the `k ≤ 8` pushes grows the vein
set by one, trading a frontier slot against nine measure units. -/
theorem floodStep_measure (tp : Grid → ℤ × ℤ → Option Grid) (size : ℕ) (s : FloodState)
    (hg : floodGuard size s = true) :
    floodMeasure size (floodStep tp s) < floodMeasure size s := by
  obtain ⟨hcard, hlen⟩ := floodGuard_true size s hg
  have hi : s.randIdx s.randIdxK % s.frontier.length < s.frontier.length :=
    Nat.mod_lt _ hlen
  have herase : (s.frontier.eraseIdx (s.randIdx s.randIdxK % s.frontier.length)).length
      = s.frontier.length - 1 := by
    have := List.length_eraseIdx_add_one hi
    omega
  unfold floodStep
  dsimp only
  cases htp : tp s.grid (s.frontier.getD (s.randIdx s.randIdxK % s.frontier.length) (0, 0)) with
  | none =>
    unfold floodMeasure
    dsimp only
    rw [herase]
    omega
  | some g =>
    unfold pushNeighbors
    obtain ⟨k, hk, hc, hl⟩ := pushList_card_len
      (s.frontier.getD (s.randIdx s.randIdxK % s.frontier.length) (0, 0)) directions
      { s with
          frontier := s.frontier.eraseIdx (s.randIdx s.randIdxK % s.frontier.length),
          randIdxK := s.randIdxK + 1, grid := g }
    have hk8 : k ≤ 8 := by
      simpa [directions] using hk
    unfold floodMeasure
    rw [hc, hl]
    dsimp only
    rw [herase]
    omega

/-- With fuel exceeding the measure, the run reaches a state whose guard
is false: the while-loop terminates within `floodMeasure` iterations. -/
theorem floodRun_guard_false (tp : Grid → ℤ × ℤ → Option Grid) (size : ℕ) :
    ∀ (fuel : ℕ) (s : FloodState), floodMeasure size s < fuel →
      floodGuard size (floodRun tp size fuel s) = false := by
  intro fuel
  induction fuel with
  | zero =>
    intro s h
    omega
  | succ n ih =>
    intro s h
    unfold floodRun
    by_cases hg : floodGuard size s = true
    · rw [if_pos hg]
      have := floodStep_measure tp size s hg
      exact ih _ (by omega)
    · rw [if_neg hg]
      simpa using hg

/-- Each iteration preserves the frontier discipline: the pop keeps a
sublist of the frontier and the expansion was handled above. -/
theorem floodStep_inv (tp : Grid → ℤ × ℤ → Option Grid) (s : FloodState)
    (h : FloodInv s) : FloodInv (floodStep tp s) := by
  unfold floodStep
  dsimp only
  have h1 : FloodInv { s with
      frontier := s.frontier.eraseIdx (s.randIdx s.randIdxK % s.frontier.length),
      randIdxK := s.randIdxK + 1 } := by
    constructor
    · exact h.1.eraseIdx _
    · intro a ha
      exact h.2 a ((List.eraseIdx_sublist _ _).subset ha)
  cases htp : tp s.grid (s.frontier.getD (s.randIdx s.randIdxK % s.frontier.length) (0, 0)) with
  | none => exact h1
  | some g => exact pushList_inv _ directions _ ⟨h1.1, h1.2⟩

/-- The run preserves the frontier discipline. -/
theorem floodRun_inv (tp : Grid → ℤ × ℤ → Option Grid) (size : ℕ) :
    ∀ (fuel : ℕ) (s : FloodState), FloodInv s → FloodInv (floodRun tp size fuel s) := by
  intro fuel
  induction fuel with
  | zero => exact fun _ h => h
  | succ n ih =>
    intro s h
    unfold floodRun
    by_cases hg : floodGuard size s = true
    · rw [if_pos hg]
      exact ih _ (floodStep_inv tp s h)
    · rw [if_neg hg]
      exact h

/-- The seeded initial state sits strictly below the chosen fuel. -/
theorem floodInit_measure (g : Grid) (start : ℤ × ℤ) (ri : ℕ → ℕ) (co : ℕ → Bool)
    (size : ℕ) : floodMeasure size (floodInit g start ri co) < floodFuel size := by
  unfold floodMeasure floodInit floodFuel
  dsimp only
  rw [Finset.card_singleton]
  simp only [List.length_singleton]
  omega

/-- The seeded initial state satisfies the frontier discipline. -/
theorem floodInit_inv (g : Grid) (start : ℤ × ℤ) (ri : ℕ → ℕ) (co : ℕ → Bool) :
    FloodInv (floodInit g start ri co) := by
  constructor
  · exact List.nodup_singleton _
  · intro a ha
    simp only [floodInit, List.mem_singleton] at ha
    subst ha
    exact Finset.mem_singleton_self _

/-- C10: for every chunk state, seed coordinate, drawn size bound and
sequence of random draws, the frontier loops of `generate_ore_vein` and
`generate_pond` terminate: the runs (with fuel `floodFuel`, which bounds
the iteration count by `floodRun_guard_false` and `floodStep_measure`)
reach a state whose loop guard is false, and the frontier discipline —
no duplicate frontier entries, every frontier entry recorded in the
only-growing vein set, which is what guards insertion — holds at the
result. -/
theorem claim_c10 (g : Grid) (ore : ℤ) (startX startY : ℤ) (size chunkHeight : ℕ)
    (ri : ℕ → ℕ) (co : ℕ → Bool) (g2 : Grid) (offset : ℚ) (centerX centerY : ℤ)
    (size2 : ℕ) (ri2 : ℕ → ℕ) (co2 : ℕ → Bool) :
    floodGuard size (generate_ore_vein g ore startX startY size chunkHeight ri co) = false ∧
    FloodInv (generate_ore_vein g ore startX startY size chunkHeight ri co) ∧
    floodGuard size2 (generate_pond g2 offset centerX centerY size2 ri2 co2) = false ∧
    FloodInv (generate_pond g2 offset centerX centerY size2 ri2 co2) := by
  refine ⟨?_, ?_, ?_, ?_⟩
  · exact floodRun_guard_false _ size (floodFuel size) _
      (floodInit_measure g (startX, startY) ri co size)
  · exact floodRun_inv _ size (floodFuel size) _ (floodInit_inv g (startX, startY) ri co)
  · exact floodRun_guard_false _ size2 (floodFuel size2) _
      (floodInit_measure g2 (centerX, centerY) ri2 co2 size2)
  · exact floodRun_inv _ size2 (floodFuel size2) _ (floodInit_inv g2 (centerX, centerY) ri2 co2)

/-- Address resolution characterization: when the chunk-index, column and
row computations evaluate as given, the chunk is in the window and the
cell address is in bounds, `get_block_at_position` returns that chunk and
address. -/
theorem get_block_at_spec (sx sy camx camy : ℚ) (w : List ChunkS) (c : ChunkS)
    (cx bx byy : ℤ)
    (hcx : ⌊(sx + camx) / (64 * 64)⌋ = cx)
    (hbx : ⌊pyMod (sx + camx) (64 * 64) / 64⌋ = bx)
    (hby : ⌊(sy + camy) / 64⌋ = byy)
    (hfind : findChunk w cx = some c)
    (hb : 0 ≤ bx ∧ bx < 64 ∧ 0 ≤ byy ∧ byy < 192) :
    get_block_at_position sx sy camx camy w = (some c, bx, byy) := by
  unfold get_block_at_position
  dsimp only
  rw [hcx, hbx, hby, hfind]
  dsimp only
  rw [if_neg (by omega)]

/-- A successful address resolution only returns in-bounds cell
addresses. -/
theorem get_block_at_bounds (sx sy camx camy : ℚ) (w : List ChunkS) (c : ChunkS)
    (bx byy : ℤ)
    (h : get_block_at_position sx sy camx camy w = (some c, bx, byy)) :
    0 ≤ bx ∧ bx < 64 ∧ 0 ≤ byy ∧ byy < 192 := by
  unfold get_block_at_position at h
  dsimp only at h
  cases hf : findChunk w ⌊(sx + camx) / (64 * 64)⌋ with
  | none =>
    rw [hf] at h
    simp at h
  | some c2 =>
    rw [hf] at h
    split_ifs at h with hcond
    · simp at h
    · cases h
      omega

/-- One resolution step changes neither the position nor the size of the
entity (only `x_change`, `y_change` and `grounded`). -/
theorem resolve_one_frame (e : Hitbox) (b : Block) :
    (resolve_one e b).x = e.x ∧ (resolve_one e b).y = e.y ∧
    (resolve_one e b).width = e.width ∧ (resolve_one e b).height = e.height := by
  unfold resolve_one
  dsimp only
  split_ifs <;> exact ⟨rfl, rfl, rfl, rfl⟩

/-- One resolution step sets `grounded` exactly when the block is resolved
vertically from below (and otherwise leaves it alone). -/
theorem resolve_one_grounded (e : Hitbox) (b : Block) :
    (resolve_one e b).grounded = (e.grounded || resolved_from_below e b) := by
  unfold resolve_one resolved_from_below
  dsimp only
  split_ifs with h1 h2 h2 <;> simp [h1, h2]

/-- The predicate `resolved_from_below` only reads the frame fields, so it
is unchanged by a resolution step. -/
theorem resolved_from_below_congr (e : Hitbox) (b : Block) :
    resolved_from_below (resolve_one e b) = resolved_from_below e := by
  funext b2
  unfold resolved_from_below
  have hf := resolve_one_frame e b
  rw [hf.1, hf.2.1, hf.2.2.1, hf.2.2.2]

/-- The resolution loop never changes the frame fields. -/
theorem resolve_foldl_frame (bs : List Block) : ∀ a : Hitbox,
    (bs.foldl resolve_one a).x = a.x ∧ (bs.foldl resolve_one a).y = a.y ∧
    (bs.foldl resolve_one a).width = a.width ∧
    (bs.foldl resolve_one a).height = a.height := by
  induction bs with
  | nil => exact fun a => ⟨rfl, rfl, rfl, rfl⟩
  | cons b bs ih =>
    intro a
    have hf := resolve_one_frame a b
    have hi := ih (resolve_one a b)
    simp only [List.foldl_cons]
    exact ⟨hi.1.trans hf.1, hi.2.1.trans hf.2.1, hi.2.2.1.trans hf.2.2.1,
      hi.2.2.2.trans hf.2.2.2⟩

/-- After the resolution loop, `grounded` holds iff it held before or some
block in the list was resolved vertically from below. -/
theorem resolve_foldl_grounded (bs : List Block) : ∀ a : Hitbox,
    (bs.foldl resolve_one a).grounded =
      (a.grounded || bs.any (resolved_from_below a)) := by
  induction bs with
  | nil => intro a; simp
  | cons b bs ih =>
    intro a
    simp only [List.foldl_cons, List.any_cons]
    rw [ih (resolve_one a b), resolve_one_grounded, resolved_from_below_congr]
    cases a.grounded <;> simp

/-- The grounded loop changes only `grounded`; in particular `y` is kept. -/
theorem grounded_pass_y (bs : List Block) : ∀ a : Hitbox,
    (grounded_pass a bs).y = a.y := by
  induction bs with
  | nil => exact fun _ => rfl
  | cons b bs ih =>
    intro a
    unfold grounded_pass at *
    simp only [List.foldl_cons]
    exact ih _

/-- The grounded loop leaves `grounded` alone on an empty list and
otherwise overwrites it with the last block's `block.y >= self.y` test. -/
theorem grounded_pass_grounded (bs : List Block) : ∀ a : Hitbox,
    (grounded_pass a bs).grounded =
      (match bs.getLast? with
       | none => a.grounded
       | some b => decide (b.y ≥ a.y)) := by
  induction bs with
  | nil => intro a; rfl
  | cons b bs ih =>
    intro a
    unfold grounded_pass at *
    simp only [List.foldl_cons]
    rw [ih]
    cases bs with
    | nil => rfl
    | cons b2 bs2 => rfl

/-- C6: breaking a tile whose type is Air or Bedrock is a no-op returning
the AIR sentinel with the window unchanged; breaking a Stone tile within
reach replaces it with Air and returns COBBLE_STONE (not STONE). -/
theorem claim_c6 (mx my camx camy : ℚ) (w : List ChunkS) (p : Hitbox)
    (c : ChunkS) (bX bY : ℤ)
    (hget : get_block_at_position mx my camx camy w = (some c, bX, bY)) :
    (((c.blocks bY.toNat bX.toNat).block_type = AIR ∨
      (c.blocks bY.toNat bX.toNat).block_type = BEDROCK) →
      break_block mx my camx camy w p = .ok (AIR, w)) ∧
    ((c.blocks bY.toNat bX.toNat).block_type = STONE →
      is_within_reach p bX bY c = true →
      break_block mx my camx camy w p =
        .ok (COBBLE_STONE, updateChunkBlocks w c.position bY.toNat bX.toNat
          (Block.init ((bX : ℚ) * 64 + c.offset) ((bY : ℚ) * 64) AIR))) := by
  unfold break_block
  rw [hget]
  dsimp only
  constructor
  · intro ht
    rw [if_pos ht]
  · intro ht hreach
    rw [if_neg (by rw [ht]; decide), if_neg (not_not_intro hreach),
      if_neg (by rw [ht]; decide), ht]
    rw [if_pos rfl]

/-- C7: placement succeeds only onto an Air cell — a non-Air target is
rejected with `False` and no change; a target coinciding with the placing
player's own cell (same chunk and column, row equal to the head row or the
foot row) is rejected with `False` and no change; and a call that returns
`True` had an Air target and wrote the block there. -/
theorem claim_c7 (mx my camx camy : ℚ) (w : List ChunkS) (p : Hitbox) (btype : ℤ)
    (c : ChunkS) (bX bY : ℤ)
    (hget : get_block_at_position mx my camx camy w = (some c, bX, bY)) :
    ((c.blocks bY.toNat bX.toNat).block_type ≠ AIR →
      place_block mx my camx camy w p btype = .ok (false, w)) ∧
    ((c.position = ⌊p.x / (64 * 64)⌋ ∧ bX = ⌊pyMod p.x (64 * 64) / 64⌋ ∧
      (bY = ⌊p.y / 64⌋ ∨ bY = ⌊(p.y + p.height - 1) / 64⌋)) →
      place_block mx my camx camy w p btype = .ok (false, w)) ∧
    (∀ res w2, place_block mx my camx camy w p btype = .ok (res, w2) → res = true →
      (c.blocks bY.toNat bX.toNat).block_type = AIR ∧
      w2 = updateChunkBlocks w c.position bY.toNat bX.toNat
        (Block.init ((bX : ℚ) * 64 + c.offset) ((bY : ℚ) * 64) btype)) := by
  have hbounds := get_block_at_bounds mx my camx camy w c bX bY hget
  unfold place_block
  rw [hget]
  dsimp only
  refine ⟨?_, ?_, ?_⟩
  · intro ht
    rw [if_pos ht]
  · intro hself
    by_cases h1 : (c.blocks bY.toNat bX.toNat).block_type ≠ AIR
    · rw [if_pos h1]
    · rw [if_neg h1]
      by_cases hr : is_within_reach p bX bY c
      · rw [if_neg (not_not_intro hr), if_pos hself]
      · rw [if_pos hr]
  · intro res w2 hok hres
    by_cases h1 : (c.blocks bY.toNat bX.toNat).block_type ≠ AIR
    · rw [if_pos h1] at hok
      cases hok
      cases hres
    · rw [if_neg h1] at hok
      by_cases hr : is_within_reach p bX bY c
      · rw [if_neg (not_not_intro hr)] at hok
        by_cases hself : c.position = ⌊p.x / (64 * 64)⌋ ∧ bX = ⌊pyMod p.x (64 * 64) / 64⌋ ∧
            (bY = ⌊p.y / 64⌋ ∨ bY = ⌊(p.y + p.height - 1) / 64⌋)
        · rw [if_pos hself] at hok
          cases hok
          cases hres
        · rw [if_neg hself] at hok
          by_cases hw : btype = WATER
          · rw [if_pos hw] at hok
            unfold place_water_source at hok
            rw [if_neg (not_not_intro hbounds)] at hok
            cases hok
          · rw [if_neg hw] at hok
            cases hok
            exact ⟨not_not.mp h1, rfl⟩
      · rw [if_pos hr] at hok
        cases hok
        cases hres

/-- Witness for C6 at the Stone cell (column 10, row 40) of the flat chunk
0, broken by a player standing in reach: the call returns COBBLE_STONE and
writes Air at that cell. -/
theorem claim_c6_witness :
    break_block 641 2561 0 0 wC6 pC6 =
      .ok (COBBLE_STONE, updateChunkBlocks wC6 (flatChunk 0).position
        (40 : ℤ).toNat (10 : ℤ).toNat
        (Block.init (((10 : ℤ) : ℚ) * 64 + (flatChunk 0).offset)
          (((40 : ℤ) : ℚ) * 64) AIR)) := by
  have hget : get_block_at_position 641 2561 0 0 wC6 = (some (flatChunk 0), 10, 40) :=
    get_block_at_spec 641 2561 0 0 wC6 (flatChunk 0) 0 10 40
      (by norm_num) (by norm_num [pyMod]) (by norm_num) rfl (by decide)
  have hreach : is_within_reach pC6 10 40 (flatChunk 0) = true := by
    unfold is_within_reach pC6 flatChunk
    dsimp only
    rw [decide_eq_true_eq]
    norm_num
  exact (claim_c6 641 2561 0 0 wC6 pC6 (flatChunk 0) 10 40 hget).2 (by decide) hreach

/-- Witness for C7 at the Dirt cell (column 10, row 36) of the flat chunk
0: placing onto a non-Air target returns `False` and changes nothing. -/
theorem claim_c7_witness :
    place_block 641 2305 0 0 wC6 pC6 GRASS = .ok (false, wC6) := by
  have hget : get_block_at_position 641 2305 0 0 wC6 = (some (flatChunk 0), 10, 36) :=
    get_block_at_spec 641 2305 0 0 wC6 (flatChunk 0) 0 10 36
      (by norm_num) (by norm_num [pyMod]) (by norm_num) rfl (by decide)
  exact (claim_c7 641 2305 0 0 wC6 pC6 GRASS (flatChunk 0) 10 36 hget).1 (by decide)

/-- C4 (code bug): the claim that Water tiles carry a well-defined
`water_distance` fails on the code.  `Block.__init__` accepts only
`(x, y, block_type)` and never sets `water_distance`, so (i)
`place_water_source` on any in-bounds cell raises `TypeError` from its
four-argument `Block` call, (ii) a Water block made by the actual
constructor has no `water_distance` attribute and any read of it raises
`AttributeError`, and (iii) the water automaton's downward-flow read on
such a block raises `AttributeError`. -/
theorem claim_c4 (c : ChunkS) (x y : ℤ)
    (h : 0 ≤ x ∧ x < 64 ∧ 0 ≤ y ∧ y < 192) :
    place_water_source c x y = .error .typeError ∧
    (Block.init 0 0 WATER).readWaterDistance = .error .attributeError ∧
    (∀ g : Grid, (g y.toNat x.toNat).waterDistance = none → y < 191 →
      flow_downward ⟨c.position, g⟩ x y = .error .attributeError) := by
  refine ⟨?_, rfl, ?_⟩
  · unfold place_water_source
    rw [if_neg (not_not_intro h)]
    rfl
  · intro g hg hy
    unfold flow_downward
    rw [if_neg (by omega)]
    unfold Block.readWaterDistance
    dsimp only
    rw [hg]
    rfl

/-- Witness for C4 at cell (5, 5) of the flat chunk 0. -/
theorem claim_c4_witness :
    place_water_source (flatChunk 0) 5 5 = .error .typeError ∧
    (Block.init 0 0 WATER).readWaterDistance = .error .attributeError := by
  have h := claim_c4 (flatChunk 0) 5 5 (by decide)
  exact ⟨h.1, h.2.1⟩

/-- C3 (code bug): breaking a Water source removes no connected flowing
water.  In the window `wC3` — source (`distance 0`) at (10, 20), a
4-adjacent flowing Water block (`distance 1`) at (11, 20), both with the
distance attribute present as the intended constructor would create them —
`remove_connected_water` at the source returns the window unchanged: the
BFS pops the seed source and executes the `water_distance == 0` `continue`
before enqueueing any neighbor, so the flowing block at (11, 20) survives.
(With blocks as actually constructed, the run cannot even reach this
point: `break_block` raises `AttributeError` reading `water_distance`, see
C4.) -/
theorem claim_c3_code_bug :
    remove_connected_water cC3 10 20 wC3 = .ok wC3 ∧
    (cC3.blocks 20 11).block_type = WATER ∧
    (cC3.blocks 20 11).waterDistance = some 1 ∧
    (cC3.blocks 20 10).block_type = WATER ∧
    (cC3.blocks 20 10).waterDistance = some 0 := by
  exact ⟨rfl, rfl, rfl, rfl, rfl⟩

/-- C2 counterexample: an entity beside a single wall block.  The block is
resolved horizontally (`x_change` is clamped to 92, `y_change` untouched),
so no vertical from-above collision occurs and the resolution pass leaves
`grounded = false`; yet after `update_player_position` the grounded loop
sets `grounded = true` because the block's `y` (120) is at least the
entity's `y` (100) — contradicting "grounded is set to true by (and only
by) a vertical collision resolved from above". -/
theorem claim_c2_counterexample :
    (resolve_collisions eC2 [bC2]).grounded = false ∧
    (resolve_collisions eC2 [bC2]).y_change = eC2.y_change ∧
    (resolve_collisions eC2 [bC2]).x_change = 92 ∧
    (update_player_position eC2 [bC2]).grounded = true := by
  have hres : resolve_collisions eC2 [bC2] =
      { eC2 with grounded := false, x_change := 92 } := by
    unfold resolve_collisions
    simp only [List.foldl_cons, List.foldl_nil]
    unfold resolve_one eC2 bC2
    dsimp only
    norm_num [min_def, max_def]
  have hup : (update_player_position eC2 [bC2]).grounded = true := by
    unfold update_player_position
    dsimp only
    rw [hres]
    unfold grounded_pass
    simp only [List.foldl_cons, List.foldl_nil]
    dsimp only
    rw [decide_eq_true_eq]
    unfold eC2 bC2
    norm_num
  exact ⟨by rw [hres], by rw [hres], by rw [hres], hup⟩

/-- C2 (amended): `grounded` is reset to false at the start of
`_resolve_collisions` and within that pass it is set true exactly by
vertical collisions resolved from below (`self.y >= block.y`), not from
above; afterwards `update_player_position` overwrites it wholesale: the
final `grounded` equals the last colliding block's `block.y >= self.y`
test when any collision occurred (hence is true after landing on a single
tile from above) and is false when no collision occurred. -/
theorem claim_c2 (e : Hitbox) (bs : List Block) :
    (resolve_collisions e bs).grounded = bs.any (resolved_from_below e) ∧
    (update_player_position e bs).grounded =
      (match bs.getLast? with
       | none => false
       | some b => decide (b.y ≥ e.y)) := by
  have hres : (resolve_collisions e bs).grounded = bs.any (resolved_from_below e) := by
    unfold resolve_collisions
    rw [resolve_foldl_grounded]
    have hcong : resolved_from_below { e with grounded := false } = resolved_from_below e := by
      funext b2
      unfold resolved_from_below
      rfl
    rw [hcong]
    simp
  refine ⟨hres, ?_⟩
  unfold update_player_position
  dsimp only
  rw [grounded_pass_grounded]
  have hy : (resolve_collisions e bs).y = e.y := by
    unfold resolve_collisions
    exact (resolve_foldl_frame bs _).2.1
  cases hlast : bs.getLast? with
  | none =>
    have hnil : bs = [] := by
      cases bs with
      | nil => rfl
      | cons b2 bs2 => simp [List.getLast?_eq_getLast] at hlast
    subst hnil
    rw [hres]
    rfl
  | some b =>
    rw [hy]

end MC
